import Mathlib

/-!
Shallow embedding of the IPython notebooks web service handlers
(IPython/html/services/notebooks/handlers.py): the dispatch logic of
NotebookHandler (patch, post, put, delete) and of
NotebookCheckpointsHandler (post), together with the response shaping
helper finish_model.  The notebook manager (the document store) is an
external collaborator and is modelled as a record of functions; every
call the handlers make against it is recorded in the result, so that
theorems can speak about which store operation a request performs.
-/

/-- A parsed JSON object body: an ordered association list of string keys to
opaque string-encoded values.  Python truthiness of a dict is nonemptiness. -/
abbrev JsonDict := List (String × String)

/-- A document model as returned by the notebook manager, restricted to the
fields the handler code reads: name, path and last_modified. -/
structure Model where
  name : String
  path : String
  last_modified : String
deriving DecidableEq

/-- A checkpoint model as returned by the notebook manager. -/
structure Checkpoint where
  id : String
  last_modified : String
deriving DecidableEq

/-- One call made against the notebook manager (the document store). -/
inductive StoreOp where
  | existsCheck (name path : String)
  | create (model : JsonDict) (path : String)
  | save (model : JsonDict) (name path : String)
  | update (model : JsonDict) (name path : String)
  | copy (copy_from : String) (copy_to : Option String) (path : String)
  | delete (name : Option String) (path : String)
  | createCheckpoint (name path : String)
deriving DecidableEq

/-- The notebook manager interface, as the handlers call it.  Each operation
returns the resulting model; this embedding models the successful case of
each store primitive. -/
structure NotebookManager where
  notebook_exists : String → String → Bool
  create_notebook_model : JsonDict → String → Model
  save_notebook_model : JsonDict → String → String → Model
  update_notebook_model : JsonDict → String → String → Model
  copy_notebook : String → Option String → String → Model
  create_checkpoint : String → String → Checkpoint

/-- The handler context: the base project url and the notebook manager. -/
structure Ctx where
  base_project_url : String
  nbm : NotebookManager

/-- The observable outcome of one request: HTTP status, the Location and
Last-Modified headers when set, and the store operations performed. -/
structure HandlerResult where
  status : Nat
  location : Option String
  lastModified : Option String
  ops : List StoreOp
deriving DecidableEq

/-- Python str.strip with a slash argument: drop leading and trailing slash
characters. -/
def stripSlashes (s : String) : String :=
  String.mk (((s.data.dropWhile (fun c => c = '/')).reverse.dropWhile
    (fun c => c = '/')).reverse)

/-- Modelled from the spec: url_path_join lives in IPython.html.utils, which
is not under src/.  The spec describes the Location header as an absolute
path built by joining its segments, so the nonempty segments are joined with
slashes. -/
def url_path_join (pieces : List String) : String :=
  String.intercalate "/" (pieces.filter (fun s => ¬ s = ""))

/-- NotebookHandler.notebook_location: the full URL location of a notebook
with the given base name and path. -/
def notebook_location (base name path : String) : String :=
  url_path_join [base, "api", "notebooks", path, name]

/-- Python dict assignment d[k] = v: replace an existing binding in place, or
append a new binding at the end. -/
def setKey (d : JsonDict) (k v : String) : JsonDict :=
  if d.any (fun p => p.fst = k) then
    d.map (fun p => if p.fst = k then (k, v) else p)
  else d ++ [(k, v)]

/-- The name-injection step shared by upload and create-empty: when a name is
given and truthy, store it under the name key of the model. -/
def injectName (model : JsonDict) (name : Option String) : JsonDict :=
  match name with
  | some n => if n = "" then model else setKey model "name" n
  | none => model

/-- NotebookHandler.finish_model: when location is requested, set the Location
header from the returned model; always set Last-Modified from the model. -/
def finish_model (base : String) (model : Model) (location : Bool)
    (status : Nat) (ops : List StoreOp) : HandlerResult :=
  { status := status
    location :=
      if location then some (notebook_location base model.name model.path)
      else none
    lastModified := some model.last_modified
    ops := ops }

/-- An HTTPError with status 400, as rendered by the json_errors decorator:
no Location, no Last-Modified. -/
def error400 (ops : List StoreOp) : HandlerResult :=
  { status := 400, location := none, lastModified := none, ops := ops }

namespace NotebookHandler

/-- NotebookHandler.copy_notebook: copy a notebook within path, optionally
giving the new name; 201 with full headers. -/
def copy_notebook (ctx : Ctx) (copy_from path : String) (copy_to : Option String)
    (ops : List StoreOp) : HandlerResult :=
  finish_model ctx.base_project_url (ctx.nbm.copy_notebook copy_from copy_to path)
    true 201 (ops ++ [StoreOp.copy copy_from copy_to path])

/-- NotebookHandler.upload_notebook: inject the name when given, create the
notebook model; 201 with full headers. -/
def upload_notebook (ctx : Ctx) (model : JsonDict) (path : String)
    (name : Option String) (ops : List StoreOp) : HandlerResult :=
  let model := injectName model name
  finish_model ctx.base_project_url (ctx.nbm.create_notebook_model model path)
    true 201 (ops ++ [StoreOp.create model path])

/-- NotebookHandler.create_empty_notebook: create from an empty model with the
name injected when given; 201 with full headers. -/
def create_empty_notebook (ctx : Ctx) (path : String) (name : Option String)
    (ops : List StoreOp) : HandlerResult :=
  let model := injectName [] name
  finish_model ctx.base_project_url (ctx.nbm.create_notebook_model model path)
    true 201 (ops ++ [StoreOp.create model path])

/-- NotebookHandler.save_notebook: save an existing notebook; 200, and the
Location header is set exactly when the returned model differs from the
requested name or the slash-stripped requested path. -/
def save_notebook (ctx : Ctx) (model : JsonDict) (path name : String)
    (ops : List StoreOp) : HandlerResult :=
  let m := ctx.nbm.save_notebook_model model name path
  let location : Bool :=
    if m.path ≠ stripSlashes path ∨ m.name ≠ name then true else false
  finish_model ctx.base_project_url m location 200
    (ops ++ [StoreOp.save model name path])

/-- NotebookHandler.patch: rename a notebook without re-uploading content. -/
def patch (ctx : Ctx) (path : String) (name : Option String)
    (body : Option JsonDict) : HandlerResult :=
  match name with
  | none => error400 []
  | some name =>
    match body with
    | none => error400 []
    | some model =>
      finish_model ctx.base_project_url
        (ctx.nbm.update_notebook_model model name path) true 200
        [StoreOp.update model name path]

/-- NotebookHandler.post: create a new notebook in path; the server always
decides the name; posting to a full name is rejected. -/
def post (ctx : Ctx) (path : String) (name : Option String) (copyArg : String)
    (body : Option JsonDict) : HandlerResult :=
  match name with
  | some _ => error400 []
  | none =>
    if copyArg ≠ "" then copy_notebook ctx copyArg path none []
    else
      match body with
      | some model =>
        if model ≠ [] then upload_notebook ctx model path none []
        else create_empty_notebook ctx path none []
      | none => create_empty_notebook ctx path none []

/-- NotebookHandler.put: save the notebook at path and name, copy when the
copy argument is given, or create an empty notebook. -/
def put (ctx : Ctx) (path : String) (name : Option String) (copyArg : String)
    (body : Option JsonDict) : HandlerResult :=
  match name with
  | none => error400 []
  | some name =>
    if copyArg ≠ "" then
      match body with
      | some _ => error400 []
      | none => copy_notebook ctx copyArg path (some name) []
    else
      match body with
      | some model =>
        if model ≠ [] then
          if ctx.nbm.notebook_exists name path then
            save_notebook ctx model path name [StoreOp.existsCheck name path]
          else
            upload_notebook ctx model path (some name)
              [StoreOp.existsCheck name path]
        else create_empty_notebook ctx path (some name) []
      | none => create_empty_notebook ctx path (some name) []

/-- NotebookHandler.delete: delete the notebook at the given path; the name is
forwarded to the store as received and the status is 204. -/
def delete (ctx : Ctx) (path : String) (name : Option String) : HandlerResult :=
  { status := 204, location := none, lastModified := none
    ops := [StoreOp.delete name path] }

end NotebookHandler

namespace NotebookCheckpointsHandler

/-- NotebookCheckpointsHandler.post: create a new checkpoint; 201 with a
Location header built from path, name and the checkpoint id.  The source
sets no Last-Modified header here. -/
def post (ctx : Ctx) (path name : String) : HandlerResult :=
  let checkpoint := ctx.nbm.create_checkpoint name path
  { status := 201
    location := some (url_path_join [ctx.base_project_url, "api/notebooks",
      path, name, "checkpoints", checkpoint.id])
    lastModified := none
    ops := [StoreOp.createCheckpoint name path] }

end NotebookCheckpointsHandler

/-- A concrete notebook manager for evaluating the handlers on sample
requests: no document exists, creation echoes the requested name or picks an
untitled one, saving and copying normalize the path by stripping slashes. -/
def demoManager : NotebookManager :=
  { notebook_exists := fun _ _ => false
    create_notebook_model := fun model path =>
      { name :=
          match model.lookup "name" with
          | some n => n
          | none => "Untitled0.ipynb"
        path := stripSlashes path
        last_modified := "2013-10-01T00:00:00Z" }
    save_notebook_model := fun _ name path =>
      { name := name, path := stripSlashes path
        last_modified := "2013-10-01T00:00:00Z" }
    update_notebook_model := fun model name path =>
      { name :=
          match model.lookup "name" with
          | some n => n
          | none => name
        path := stripSlashes path
        last_modified := "2013-10-01T00:00:00Z" }
    copy_notebook := fun _ copy_to path =>
      { name :=
          match copy_to with
          | some n => n
          | none => "Copy0.ipynb"
        path := stripSlashes path
        last_modified := "2013-10-01T00:00:00Z" }
    create_checkpoint := fun _ _ =>
      { id := "cp1", last_modified := "2013-10-01T00:00:00Z" } }

/-- The demo manager where every document exists, so that a PUT with a body
takes the save branch. -/
def demoManagerExisting : NotebookManager :=
  { demoManager with notebook_exists := fun _ _ => true }

/-- A concrete context over the demo manager. -/
def demoCtx : Ctx := { base_project_url := "", nbm := demoManager }

/-- A concrete context over the demo manager with existing documents. -/
def demoCtxExisting : Ctx := { base_project_url := "", nbm := demoManagerExisting }

/-- Claim C1: a PUT with a name present, an empty copy parameter and a
nonempty JSON body is handled as Save with status 200 when a document already
exists at the requested path and name, and as Upload with status 201 and a
Location header when none exists. -/
theorem put_body_save_or_upload (ctx : Ctx) (path name : String)
    (body : JsonDict) (hb : body ≠ []) :
    (ctx.nbm.notebook_exists name path = true →
      (NotebookHandler.put ctx path (some name) "" (some body)).status = 200 ∧
      (NotebookHandler.put ctx path (some name) "" (some body)).ops =
        [StoreOp.existsCheck name path, StoreOp.save body name path]) ∧
    (ctx.nbm.notebook_exists name path = false →
      (NotebookHandler.put ctx path (some name) "" (some body)).status = 201 ∧
      (NotebookHandler.put ctx path (some name) "" (some body)).location.isSome
        = true ∧
      (NotebookHandler.put ctx path (some name) "" (some body)).ops =
        [StoreOp.existsCheck name path,
         StoreOp.create (injectName body (some name)) path]) := by
  constructor
  · intro hex
    simp [NotebookHandler.put, NotebookHandler.save_notebook, finish_model,
      hb, hex]
  · intro hex
    simp [NotebookHandler.put, NotebookHandler.upload_notebook, finish_model,
      hb, hex]

/-- Witness for put_body_save_or_upload at a concrete request against the
demo manager, which reports no existing document. -/
theorem put_body_save_or_upload_witness :
    ([("content", "x")] : JsonDict) ≠ [] ∧
    ((NotebookHandler.put demoCtx "work" (some "a.ipynb") ""
        (some [("content", "x")])).status = 201 ∧
     (NotebookHandler.put demoCtx "work" (some "a.ipynb") ""
        (some [("content", "x")])).location.isSome = true ∧
     (NotebookHandler.put demoCtx "work" (some "a.ipynb") ""
        (some [("content", "x")])).ops =
       [StoreOp.existsCheck "a.ipynb" "work",
        StoreOp.create (injectName [("content", "x")] (some "a.ipynb")) "work"]) :=
  ⟨by decide,
   (put_body_save_or_upload demoCtx "work" "a.ipynb" [("content", "x")]
     (by decide)).2 (by decide)⟩

/-- Claim C2: a PUT with a name present and a nonempty copy parameter rejects
a non-null body with 400 performing no store operation; with a null body it
performs the copy and responds 201 with Location and Last-Modified headers. -/
theorem put_copy_branch (ctx : Ctx) (path name copyArg : String)
    (hc : copyArg ≠ "") :
    (∀ body : JsonDict,
      (NotebookHandler.put ctx path (some name) copyArg (some body)).status
        = 400 ∧
      (NotebookHandler.put ctx path (some name) copyArg (some body)).ops
        = []) ∧
    ((NotebookHandler.put ctx path (some name) copyArg none).status = 201 ∧
     (NotebookHandler.put ctx path (some name) copyArg none).location =
       some (notebook_location ctx.base_project_url
         (ctx.nbm.copy_notebook copyArg (some name) path).name
         (ctx.nbm.copy_notebook copyArg (some name) path).path) ∧
     (NotebookHandler.put ctx path (some name) copyArg none).lastModified =
       some (ctx.nbm.copy_notebook copyArg (some name) path).last_modified ∧
     (NotebookHandler.put ctx path (some name) copyArg none).ops =
       [StoreOp.copy copyArg (some name) path]) := by
  constructor
  · intro body
    simp [NotebookHandler.put, error400, hc]
  · simp [NotebookHandler.put, NotebookHandler.copy_notebook, finish_model, hc]

/-- Witness for put_copy_branch at a concrete request. -/
theorem put_copy_branch_witness :
    ("b.ipynb" : String) ≠ "" ∧
    ((NotebookHandler.put demoCtx "work" (some "a.ipynb") "b.ipynb"
        (some [])).status = 400 ∧
     (NotebookHandler.put demoCtx "work" (some "a.ipynb") "b.ipynb"
        (some [])).ops = []) :=
  ⟨by decide,
   (put_copy_branch demoCtx "work" "a.ipynb" "b.ipynb" (by decide)).1 []⟩

/-- Claim C3: a POST without a name selects exactly one operation in priority
order: Copy when the copy parameter is nonempty regardless of body, else
Upload with no caller-supplied name when the body is nonempty, else
CreateEmpty; each responds 201 with Location and Last-Modified headers. -/
theorem post_priority (ctx : Ctx) (path copyArg : String)
    (body : Option JsonDict) :
    (copyArg ≠ "" →
      (NotebookHandler.post ctx path none copyArg body).status = 201 ∧
      (NotebookHandler.post ctx path none copyArg body).location.isSome
        = true ∧
      (NotebookHandler.post ctx path none copyArg body).lastModified.isSome
        = true ∧
      (NotebookHandler.post ctx path none copyArg body).ops =
        [StoreOp.copy copyArg none path]) ∧
    (∀ m : JsonDict, copyArg = "" → body = some m → m ≠ [] →
      (NotebookHandler.post ctx path none copyArg body).status = 201 ∧
      (NotebookHandler.post ctx path none copyArg body).location.isSome
        = true ∧
      (NotebookHandler.post ctx path none copyArg body).lastModified.isSome
        = true ∧
      (NotebookHandler.post ctx path none copyArg body).ops =
        [StoreOp.create m path]) ∧
    (copyArg = "" → (body = none ∨ body = some []) →
      (NotebookHandler.post ctx path none copyArg body).status = 201 ∧
      (NotebookHandler.post ctx path none copyArg body).location.isSome
        = true ∧
      (NotebookHandler.post ctx path none copyArg body).lastModified.isSome
        = true ∧
      (NotebookHandler.post ctx path none copyArg body).ops =
        [StoreOp.create [] path]) := by
  refine ⟨fun hc => ?_, fun m hc hm hne => ?_, fun hc hb => ?_⟩
  · simp [NotebookHandler.post, NotebookHandler.copy_notebook, finish_model, hc]
  · subst hc; subst hm
    simp [NotebookHandler.post, NotebookHandler.upload_notebook, finish_model,
      injectName, hne]
  · subst hc
    rcases hb with hb | hb <;> subst hb <;>
      simp [NotebookHandler.post, NotebookHandler.create_empty_notebook,
        finish_model, injectName]

/-- Witness for post_priority at a concrete request taking the copy branch. -/
theorem post_priority_witness :
    ("b.ipynb" : String) ≠ "" ∧
    ((NotebookHandler.post demoCtx "work" none "b.ipynb" none).status = 201 ∧
     (NotebookHandler.post demoCtx "work" none "b.ipynb" none).location.isSome
       = true ∧
     (NotebookHandler.post demoCtx "work" none "b.ipynb" none).lastModified.isSome
       = true ∧
     (NotebookHandler.post demoCtx "work" none "b.ipynb" none).ops =
       [StoreOp.copy "b.ipynb" none "work"]) :=
  ⟨by decide, (post_priority demoCtx "work" "b.ipynb" none).1 (by decide)⟩

/-- Claim C4: a POST with a name present always fails with 400 and performs
no store operation, regardless of the body and of the copy parameter. -/
theorem post_name_rejected (ctx : Ctx) (path name copyArg : String)
    (body : Option JsonDict) :
    NotebookHandler.post ctx path (some name) copyArg body =
      { status := 400, location := none, lastModified := none, ops := [] } :=
  rfl

/-- Claim C5: a PATCH without a name fails with 400; with a name but a null
body it fails with 400; otherwise it performs the rename through the store
update operation and responds 200 with a Location header computed from the
returned model and a Last-Modified header. -/
theorem patch_rename (ctx : Ctx) (path name : String)
    (bodyO : Option JsonDict) (body : JsonDict) :
    (NotebookHandler.patch ctx path none bodyO).status = 400 ∧
    (NotebookHandler.patch ctx path none bodyO).ops = [] ∧
    (NotebookHandler.patch ctx path (some name) none).status = 400 ∧
    (NotebookHandler.patch ctx path (some name) none).ops = [] ∧
    (NotebookHandler.patch ctx path (some name) (some body)).status = 200 ∧
    (NotebookHandler.patch ctx path (some name) (some body)).location =
      some (notebook_location ctx.base_project_url
        (ctx.nbm.update_notebook_model body name path).name
        (ctx.nbm.update_notebook_model body name path).path) ∧
    (NotebookHandler.patch ctx path (some name) (some body)).lastModified =
      some (ctx.nbm.update_notebook_model body name path).last_modified ∧
    (NotebookHandler.patch ctx path (some name) (some body)).ops =
      [StoreOp.update body name path] :=
  ⟨rfl, rfl, rfl, rfl, rfl, rfl, rfl, rfl⟩

/-- Claim C6 counterexample: with the slash-normalizing demo store, a Save
requested at path /work returns a model whose path is work — an identity
different from the requested one — yet the response carries no Location
header, refuting the claimed equivalence. -/
theorem save_location_claim_fails :
    (demoCtxExisting.nbm.save_notebook_model [("content", "x")] "a.ipynb"
      "/work").path ≠ "/work" ∧
    (NotebookHandler.put demoCtxExisting "/work" (some "a.ipynb") ""
      (some [("content", "x")])).status = 200 ∧
    (NotebookHandler.put demoCtxExisting "/work" (some "a.ipynb") ""
      (some [("content", "x")])).location = none := by
  decide

/-- Claim C6 (amended): for a Save, the Location header is present if and only
if the returned model differs from the requested name or from the requested
path stripped of leading and trailing slashes; Last-Modified is always set
and the status is 200. -/
theorem save_location_iff (ctx : Ctx) (path name : String) (body : JsonDict)
    (hb : body ≠ []) (hex : ctx.nbm.notebook_exists name path = true) :
    (NotebookHandler.put ctx path (some name) "" (some body)).status = 200 ∧
    (NotebookHandler.put ctx path (some name) "" (some body)).lastModified =
      some (ctx.nbm.save_notebook_model body name path).last_modified ∧
    ((NotebookHandler.put ctx path (some name) "" (some body)).location.isSome
        = true ↔
      ((ctx.nbm.save_notebook_model body name path).path ≠ stripSlashes path ∨
       (ctx.nbm.save_notebook_model body name path).name ≠ name)) := by
  by_cases hpq :
      (ctx.nbm.save_notebook_model body name path).path ≠ stripSlashes path ∨
      (ctx.nbm.save_notebook_model body name path).name ≠ name <;>
    refine ⟨?_, ?_, ?_⟩ <;>
      simp [NotebookHandler.put, NotebookHandler.save_notebook, finish_model,
        hb, hex, hpq]

/-- Witness for save_location_iff at a concrete request against the demo
manager with existing documents. -/
theorem save_location_iff_witness :
    ([("content", "x")] : JsonDict) ≠ [] ∧
    demoCtxExisting.nbm.notebook_exists "a.ipynb" "work" = true ∧
    ((NotebookHandler.put demoCtxExisting "work" (some "a.ipynb") ""
        (some [("content", "x")])).status = 200 ∧
     (NotebookHandler.put demoCtxExisting "work" (some "a.ipynb") ""
        (some [("content", "x")])).lastModified =
       some (demoCtxExisting.nbm.save_notebook_model [("content", "x")]
         "a.ipynb" "work").last_modified ∧
     ((NotebookHandler.put demoCtxExisting "work" (some "a.ipynb") ""
         (some [("content", "x")])).location.isSome = true ↔
       ((demoCtxExisting.nbm.save_notebook_model [("content", "x")] "a.ipynb"
           "work").path ≠ stripSlashes "work" ∨
        (demoCtxExisting.nbm.save_notebook_model [("content", "x")] "a.ipynb"
           "work").name ≠ "a.ipynb"))) :=
  ⟨by decide, by decide,
   save_location_iff demoCtxExisting "work" "a.ipynb" [("content", "x")]
     (by decide) (by decide)⟩

/-- Claim C7 counterexample: a successful checkpoint creation responds 201
but sets no Last-Modified header. -/
theorem create_checkpoint_no_last_modified :
    (NotebookCheckpointsHandler.post demoCtx "work" "a.ipynb").status = 201 ∧
    (NotebookCheckpointsHandler.post demoCtx "work" "a.ipynb").lastModified
      = none := by
  decide

/-- Claim C7 (amended): a successful checkpoint creation responds 201 with a
Location header joining the base url, api/notebooks, path, name, checkpoints
and the new checkpoint id; no Last-Modified header is set. -/
theorem create_checkpoint_response (ctx : Ctx) (path name : String) :
    NotebookCheckpointsHandler.post ctx path name =
      { status := 201
        location := some (url_path_join [ctx.base_project_url,
          "api/notebooks", path, name, "checkpoints",
          (ctx.nbm.create_checkpoint name path).id])
        lastModified := none
        ops := [StoreOp.createCheckpoint name path] } :=
  rfl

/-- Claim C8 counterexample: a successful Delete response (status 204) is a
mutating response that carries no Last-Modified header. -/
theorem delete_no_last_modified :
    (NotebookHandler.delete demoCtx "work" (some "a.ipynb")).status = 204 ∧
    (NotebookHandler.delete demoCtx "work" (some "a.ipynb")).lastModified
      = none := by
  decide

/-- Claim C8 (amended): every successful response to a model-returning
mutating operation — Rename, Copy, Upload, CreateEmpty and Save — carries a
Last-Modified header, while the Delete response carries none. -/
theorem mutating_last_modified (ctx : Ctx) (path name copyArg : String)
    (body : JsonDict) (bodyO : Option JsonDict)
    (h : copyArg = "" ∨ bodyO = none) :
    (NotebookHandler.patch ctx path (some name) (some body)).lastModified.isSome
      = true ∧
    (NotebookHandler.post ctx path none copyArg bodyO).lastModified.isSome
      = true ∧
    (NotebookHandler.put ctx path (some name) copyArg bodyO).lastModified.isSome
      = true ∧
    (NotebookHandler.delete ctx path (some name)).lastModified = none := by
  refine ⟨rfl, ?_, ?_, rfl⟩
  · by_cases hc : copyArg = ""
    · subst hc
      cases bodyO with
      | none =>
        simp [NotebookHandler.post, NotebookHandler.create_empty_notebook,
          finish_model]
      | some m =>
        by_cases hm : m = []
        · subst hm
          simp [NotebookHandler.post, NotebookHandler.create_empty_notebook,
            finish_model]
        · simp [NotebookHandler.post, NotebookHandler.upload_notebook,
            finish_model, hm]
    · simp [NotebookHandler.post, NotebookHandler.copy_notebook, finish_model,
        hc]
  · rcases h with hc | hb
    · subst hc
      cases bodyO with
      | none =>
        simp [NotebookHandler.put, NotebookHandler.create_empty_notebook,
          finish_model]
      | some m =>
        by_cases hm : m = []
        · subst hm
          simp [NotebookHandler.put, NotebookHandler.create_empty_notebook,
            finish_model]
        · by_cases hex : ctx.nbm.notebook_exists name path
          · simp [NotebookHandler.put, NotebookHandler.save_notebook,
              finish_model, hm, hex]
          · simp [NotebookHandler.put, NotebookHandler.upload_notebook,
              finish_model, hm, hex]
    · subst hb
      by_cases hc : copyArg = ""
      · subst hc
        simp [NotebookHandler.put, NotebookHandler.create_empty_notebook,
          finish_model]
      · simp [NotebookHandler.put, NotebookHandler.copy_notebook,
          finish_model, hc]

/-- Witness for mutating_last_modified at a concrete request set. -/
theorem mutating_last_modified_witness :
    (("" : String) = "" ∨ (none : Option JsonDict) = none) ∧
    ((NotebookHandler.patch demoCtx "work" (some "a.ipynb")
        (some [("name", "b.ipynb")])).lastModified.isSome = true ∧
     (NotebookHandler.post demoCtx "work" none "" none).lastModified.isSome
       = true ∧
     (NotebookHandler.put demoCtx "work" (some "a.ipynb") ""
        none).lastModified.isSome = true ∧
     (NotebookHandler.delete demoCtx "work" (some "a.ipynb")).lastModified
       = none) :=
  ⟨Or.inl rfl,
   mutating_last_modified demoCtx "work" "a.ipynb" "" [("name", "b.ipynb")]
     none (Or.inl rfl)⟩

/-- Claim C9 counterexample: a DELETE without a name is not rejected with
400; the store delete operation is invoked with the absent name and the
response status is 204. -/
theorem delete_without_name_not_rejected :
    (NotebookHandler.delete demoCtx "work" none).status = 204 ∧
    (NotebookHandler.delete demoCtx "work" none).ops =
      [StoreOp.delete none "work"] := by
  decide

/-- Claim C9 (amended): the DELETE handler performs no name-presence check;
the name, present or absent, is forwarded to the store delete operation and
the response is 204 with no headers. -/
theorem delete_forwards_name (ctx : Ctx) (path : String)
    (name : Option String) :
    NotebookHandler.delete ctx path name =
      { status := 204, location := none, lastModified := none
        ops := [StoreOp.delete name path] } :=
  rfl

/-- Claim C10: a present-but-empty JSON object body is rejected with 400 on
the PUT copy branch, with no store operation, while the same body on a PUT
without the copy parameter is treated like an absent body and resolves to
CreateEmpty with a 201 response. -/
theorem put_empty_body_asymmetry (ctx : Ctx) (path name copyArg : String)
    (hc : copyArg ≠ "") :
    (NotebookHandler.put ctx path (some name) copyArg (some [])).status
      = 400 ∧
    (NotebookHandler.put ctx path (some name) copyArg (some [])).ops = [] ∧
    (NotebookHandler.put ctx path (some name) "" (some [])).status = 201 ∧
    (NotebookHandler.put ctx path (some name) "" (some [])).ops =
      [StoreOp.create (injectName [] (some name)) path] := by
  refine ⟨?_, ?_, ?_, ?_⟩ <;>
    simp [NotebookHandler.put, NotebookHandler.create_empty_notebook,
      finish_model, error400, hc]

/-- Witness for put_empty_body_asymmetry at a concrete request. -/
theorem put_empty_body_asymmetry_witness :
    ("b.ipynb" : String) ≠ "" ∧
    ((NotebookHandler.put demoCtx "work" (some "a.ipynb") "b.ipynb"
        (some [])).status = 400 ∧
     (NotebookHandler.put demoCtx "work" (some "a.ipynb") "b.ipynb"
        (some [])).ops = [] ∧
     (NotebookHandler.put demoCtx "work" (some "a.ipynb") ""
        (some [])).status = 201 ∧
     (NotebookHandler.put demoCtx "work" (some "a.ipynb") ""
        (some [])).ops =
       [StoreOp.create (injectName [] (some "a.ipynb")) "work"]) :=
  ⟨by decide,
   put_empty_body_asymmetry demoCtx "work" "a.ipynb" "b.ipynb" (by decide)⟩
